import Mathlib

/-!
# Verification of the External Integration & Normalization Engine

Shallow embedding of the cw-mcp logistics orchestrator's core:
the per-vendor normalizers (`src/adapters/*_adapter.py`), the retrying
HTTP request helper (`BaseLogisticsAdapter._make_request`), the
`track_shipment` resolution tool (`src/tools.py`) and the vessel
position simulator (`VesselTrackingAdapter._simulate_position`).

Python `dict` payloads are modelled by the `Json` inductive; Python's
`dict.get` (returning `None` on a missing key, raising `AttributeError`
on a non-dict receiver) is modelled by `jget`/`jgetD` returning
`Except`.  Machine floats in the simulator are modelled by `ℚ`; the
claims under study only involve exact values (0, 1/2, 1) that float
arithmetic also produces exactly.
-/

/-- A Python/JSON value.  `obj` keeps the insertion order of the dict
literal, which Python preserves and the tracking adapter relies on. -/
inductive Json where
  | null
  | bool (b : Bool)
  | num (q : ℚ)
  | str (s : String)
  | arr (elems : List Json)
  | obj (fields : List (String × Json))

/-- Association-list lookup, the semantics of Python dict key lookup
(dict literals here have no duplicate keys, so first match is the value). -/
def assocJ : List (String × Json) → String → Option Json
  | [], _ => none
  | (k', v) :: rest, k => if k = k' then some v else assocJ rest k

/-- Python `d.get(k)`: `None` when the key is absent; `AttributeError` when the
receiver is not a dict. -/
def jget (j : Json) (k : String) : Except String Json :=
  match j with
  | .obj fs => .ok ((assocJ fs k).getD .null)
  | _ => .error "AttributeError: no attribute get"

/-- Python `d.get(k, default)`: the default is used only when the key is absent. -/
def jgetD (j : Json) (k : String) (d : Json) : Except String Json :=
  match j with
  | .obj fs => .ok ((assocJ fs k).getD d)
  | _ => .error "AttributeError: no attribute get"

/-- Python truthiness of a value (`not x`). -/
def pyFalsy : Json → Bool
  | .null => true
  | .bool b => !b
  | .num q => q = 0
  | .str s => s = ""
  | .arr es => es.isEmpty
  | .obj fs => fs.isEmpty

/-- Is the value a dict? -/
def Json.isObj : Json → Bool
  | .obj _ => true
  | _ => false

/-- Dict keys are hashable; a dict or a list key raises `TypeError`. -/
def Json.hashable : Json → Bool
  | .obj _ => false
  | .arr _ => false
  | _ => true

-- ===========================================================================
-- Canonical ("standard format") shipment record, the shape every
-- `normalize_response` returns (`Shipment.to_standard_format` in models.py).
-- ===========================================================================

structure JLocation where
  lat : Json
  lng : Json
  name : Json

structure JTracking where
  container : Json
  vessel : Json
  voyage : Json
  location : JLocation

structure JSchedule where
  etd : Json
  eta : Json

structure JStatus where
  code : String
  description : Json

structure JFlags where
  is_risk : Bool
  agent_notes : Json

structure JMetadata where
  master_bill : Json
  created_at : Json
  updated_at : Json

structure StdShipment where
  id : Json
  tracking : JTracking
  schedule : JSchedule
  status : JStatus
  flags : JFlags
  metadata : JMetadata

/-- The `AdapterError(message, vendor, original_error)` exception from base_adapter.py. -/
structure AdapterError where
  message : String
  vendor : String
  original_error : String

/-- The closed `StatusCode` enumeration of the canonical schema. -/
def STATUS_CODES : List String :=
  ["BOOKED", "IN_TRANSIT", "AT_PORT", "CUSTOMS_HOLD", "DELAYED", "DELIVERED", "UNKNOWN"]

-- ===========================================================================
-- Status translation tables (one per vendor adapter, copied from source).
-- ===========================================================================

/-- String-valued association lookup used by `dict.get(key, "UNKNOWN")`. -/
def assocS : List (String × String) → String → Option String
  | [], _ => none
  | (k', v) :: rest, k => if k = k' then some v else assocS rest k

/-- The `status_map` of `LogitudeAdapter._normalize_status_code`. -/
def logitudeStatusMap : List (String × String) :=
  [("BOOKING_CONFIRMED", "BOOKED"),
   ("CONTAINER_LOADED", "IN_TRANSIT"),
   ("VESSEL_DEPARTED", "IN_TRANSIT"),
   ("IN_TRANSIT", "IN_TRANSIT"),
   ("PORT_ARRIVAL", "AT_PORT"),
   ("CUSTOMS_CLEARANCE", "CUSTOMS_HOLD"),
   ("DELIVERED", "DELIVERED"),
   ("EXCEPTION", "DELAYED")]

/-- The `status_map` of `DPWorldAdapter._normalize_status_code`. -/
def dpworldStatusMap : List (String × String) :=
  [("GATE_IN", "AT_PORT"),
   ("YARD_STORAGE", "AT_PORT"),
   ("VESSEL_LOADING", "IN_TRANSIT"),
   ("ON_BOARD", "IN_TRANSIT"),
   ("VESSEL_DISCHARGE", "AT_PORT"),
   ("GATE_OUT", "DELIVERED"),
   ("CUSTOMS_INSPECT", "CUSTOMS_HOLD"),
   ("DELAYED_VESSEL", "DELAYED"),
   ("AWAITING_DOCS", "CUSTOMS_HOLD")]

/-- The `status_map` of `TrackingAPIAdapter._normalize_status_code`, in the
dict literal's insertion order (significant: matching is by substring,
first key wins). -/
def trackingStatusMap : List (String × String) :=
  [("PENDING", "BOOKED"),
   ("BOOKED", "BOOKED"),
   ("IN TRANSIT", "IN_TRANSIT"),
   ("TRANSIT", "IN_TRANSIT"),
   ("AT PORT", "AT_PORT"),
   ("PORT", "AT_PORT"),
   ("CUSTOMS", "CUSTOMS_HOLD"),
   ("DELIVERED", "DELIVERED"),
   ("COMPLETE", "DELIVERED"),
   ("DELAYED", "DELAYED"),
   ("EXCEPTION", "DELAYED")]

/-- Python `status_map.get(x, "UNKNOWN")` on an arbitrary value `x`: a string key
is looked up, any other hashable value misses (→ `UNKNOWN`), an
unhashable key (dict/list) raises `TypeError`. -/
def statusMapGet (m : List (String × String)) (x : Json) : Except String String :=
  match x with
  | .str s => .ok ((assocS m s).getD "UNKNOWN")
  | .obj _ => .error "TypeError: unhashable type"
  | .arr _ => .error "TypeError: unhashable type"
  | _ => .ok "UNKNOWN"

/-- Embedding of `LogitudeAdapter._normalize_status_code`. -/
def logitudeNormalizeStatusCode (x : Json) : Except String String :=
  statusMapGet logitudeStatusMap x

/-- Embedding of `DPWorldAdapter._normalize_status_code`. -/
def dpworldNormalizeStatusCode (x : Json) : Except String String :=
  statusMapGet dpworldStatusMap x

/-- Python `tracking_status.upper()`: uppercase each character (ASCII case
mapping, which is all the table's keys need). -/
def strUpper (s : String) : String :=
  ⟨s.data.map Char.toUpper⟩

/-- Python `key in status_upper`: substring containment on strings. -/
def strContains (hay needle : String) : Bool :=
  hay.data.tails.any (fun t => needle.data.isPrefixOf t)

/-- The `for key, value in status_map.items(): if key in status_upper`
loop body of `TrackingAPIAdapter._normalize_status_code`. -/
def trackingStatusLoop : List (String × String) → String → String
  | [], _ => "UNKNOWN"
  | (k, v) :: rest, statusUpper =>
      if strContains statusUpper k then v else trackingStatusLoop rest statusUpper

/-- Embedding of `TrackingAPIAdapter._normalize_status_code`: falsy input → `UNKNOWN`;
a truthy non-string has no `.upper()` (`AttributeError`); otherwise the
first table key contained in the uppercased status wins, else `UNKNOWN`. -/
def trackingNormalizeStatusCode (x : Json) : Except String String :=
  if pyFalsy x then .ok "UNKNOWN"
  else
    match x with
    | .str s => .ok (trackingStatusLoop trackingStatusMap (strUpper s))
    | _ => .error "AttributeError: no attribute upper"

-- ===========================================================================
-- Vendor normalizers: `normalize_response` of each adapter.
-- Each is the source's dict-building expression, field accesses in source
-- order, with the `try/except` wrapping any raised error into an
-- `AdapterError(message, vendor, original_error)`.
-- ===========================================================================

/-- Embedding of `LogitudeAdapter.normalize_response`, body of the `try` block. -/
def logitudeNormalizeBody (raw : Json) : Except String StdShipment := do
  let id ← jget raw "referenceNumber"
  let containerDetails ← jgetD raw "containerDetails" (.obj [])
  let container ← jget containerDetails "number"
  let vesselInfo1 ← jgetD raw "vesselInfo" (.obj [])
  let vessel ← jget vesselInfo1 "name"
  let vesselInfo2 ← jgetD raw "vesselInfo" (.obj [])
  let voyage ← jget vesselInfo2 "voyageNumber"
  let currentPosition1 ← jgetD raw "currentPosition" (.obj [])
  let lat ← jget currentPosition1 "latitude"
  let currentPosition2 ← jgetD raw "currentPosition" (.obj [])
  let lng ← jget currentPosition2 "longitude"
  let currentPosition3 ← jgetD raw "currentPosition" (.obj [])
  let locName ← jget currentPosition3 "locationName"
  let etd ← jget raw "departureDate"
  let eta ← jget raw "arrivalDate"
  let statusCode ← jget raw "statusCode"
  let code ← logitudeNormalizeStatusCode statusCode
  let description ← jget raw "statusMessage"
  let masterBill ← jget raw "masterBillOfLading"
  let createdAt ← jget raw "createdAt"
  let updatedAt ← jget raw "lastUpdated"
  pure { id := id,
         tracking := { container := container, vessel := vessel, voyage := voyage,
                       location := { lat := lat, lng := lng, name := locName } },
         schedule := { etd := etd, eta := eta },
         status := { code := code, description := description },
         flags := { is_risk := false, agent_notes := .null },
         metadata := { master_bill := masterBill, created_at := createdAt,
                       updated_at := updatedAt } }

/-- Embedding of `LogitudeAdapter.normalize_response` with its `except` clause. -/
def logitudeNormalizeResponse (raw : Json) : Except AdapterError StdShipment :=
  match logitudeNormalizeBody raw with
  | .ok r => .ok r
  | .error cause =>
      .error { message := "Failed to normalize Logitude response",
               vendor := "Logitude", original_error := cause }

/-- Embedding of `DPWorldAdapter.normalize_response`, body of the `try` block
(all field accesses are direct `raw_data.get`, no nested dicts). -/
def dpworldNormalizeBody (raw : Json) : Except String StdShipment := do
  let id ← jget raw "booking_ref"
  let container ← jget raw "container_id"
  let vessel ← jget raw "vessel_name"
  let voyage ← jget raw "voyage_ref"
  let lat ← jget raw "gps_lat"
  let lng ← jget raw "gps_lng"
  let portName ← jget raw "port_name"
  let terminalName ← jget raw "terminal_name"
  -- `raw_data.get("port_name") or raw_data.get("terminal_name")`
  let locName := if pyFalsy portName then terminalName else portName
  let etd ← jget raw "scheduled_departure"
  let eta ← jget raw "estimated_arrival"
  let operationStatus ← jget raw "operation_status"
  let code ← dpworldNormalizeStatusCode operationStatus
  let description ← jget raw "status_details"
  let masterBill ← jget raw "bl_number"
  let createdAt ← jget raw "created_date"
  let updatedAt ← jget raw "modified_date"
  pure { id := id,
         tracking := { container := container, vessel := vessel, voyage := voyage,
                       location := { lat := lat, lng := lng, name := locName } },
         schedule := { etd := etd, eta := eta },
         status := { code := code, description := description },
         flags := { is_risk := false, agent_notes := .null },
         metadata := { master_bill := masterBill, created_at := createdAt,
                       updated_at := updatedAt } }

/-- Embedding of `DPWorldAdapter.normalize_response` with its `except` clause. -/
def dpworldNormalizeResponse (raw : Json) : Except AdapterError StdShipment :=
  match dpworldNormalizeBody raw with
  | .ok r => .ok r
  | .error cause =>
      .error { message := "Failed to normalize DP World response",
               vendor := "DPWorld", original_error := cause }

/-- Embedding of `TrackingAPIAdapter.normalize_response`, body of the `try` block:
`tracking_data = raw_data.get("data", {})`, then flat accesses. -/
def trackingNormalizeBody (raw : Json) : Except String StdShipment := do
  let trackingData ← jgetD raw "data" (.obj [])
  let trackingNumber ← jget trackingData "tracking_number"
  let reference ← jget trackingData "reference"
  -- `tracking_data.get("tracking_number") or tracking_data.get("reference")`
  let id := if pyFalsy trackingNumber then reference else trackingNumber
  let container ← jget trackingData "container_number"
  let vessel ← jget trackingData "vessel"
  let voyage ← jget trackingData "voyage"
  let lat ← jget trackingData "latitude"
  let lng ← jget trackingData "longitude"
  let locName ← jget trackingData "location"
  let etd ← jget trackingData "departure_time"
  let eta ← jget trackingData "arrival_time"
  let status ← jget trackingData "status"
  let code ← trackingNormalizeStatusCode status
  let description ← jget trackingData "status_description"
  let masterBill ← jget trackingData "bill_of_lading"
  let createdAt ← jget trackingData "first_tracked"
  let updatedAt ← jget trackingData "last_update"
  pure { id := id,
         tracking := { container := container, vessel := vessel, voyage := voyage,
                       location := { lat := lat, lng := lng, name := locName } },
         schedule := { etd := etd, eta := eta },
         status := { code := code, description := description },
         flags := { is_risk := false, agent_notes := .null },
         metadata := { master_bill := masterBill, created_at := createdAt,
                       updated_at := updatedAt } }

/-- Embedding of `TrackingAPIAdapter.normalize_response` with its `except` clause. -/
def trackingNormalizeResponse (raw : Json) : Except AdapterError StdShipment :=
  match trackingNormalizeBody raw with
  | .ok r => .ok r
  | .error cause =>
      .error { message := "Failed to normalize Tracking API response",
               vendor := "TrackingAPI", original_error := cause }

-- ===========================================================================
-- `BaseLogisticsAdapter._make_request`: retry loop with classification.
-- The environment `env n` is the outcome of the (n+1)-th HTTP attempt.
-- ===========================================================================

/-- Retry configuration defaults from `config.py` (`Settings`). -/
def MAX_RETRIES : Nat := 3

/-- Default `RETRY_DELAY` from `config.py`. -/
def RETRY_DELAY : Nat := 1

/-- Outcome of one `self.client.request(...)` call, as the `try` block
observes it: a response (with status, text body, and the result of
`response.json()` — `none` when the body is not JSON), a connection
error, a timeout, or any other unexpected exception. -/
inductive HttpAttempt where
  | response (status : Nat) (body : String) (json : Option Json)
  | connectError (msg : String)
  | timeoutError (msg : String)
  | otherError (msg : String)

/-- The `last_exception` values a retryable attempt can leave behind. -/
inductive LastErr where
  | httpStatus (status : Nat) (body : String)
  | connect (msg : String)
  | timeout (msg : String)
deriving DecidableEq, Repr

/-- How `_make_request` can fail. -/
inductive ReqError where
  /-- re-raised `httpx.HTTPStatusError` for a 4xx response -/
  | clientError (status : Nat) (body : String)
  /-- re-raised unexpected exception (e.g. a JSON decode error) -/
  | unexpected (msg : String)
  /-- the exhaustion error: external API unavailable after n attempts, with the last error -/
  | exhausted (attempts : Nat) (lastError : Option LastErr)
deriving DecidableEq, Repr

/-- Result of a `_make_request` run: the returned JSON or the raised
error, the number of HTTP attempts actually made, and the list of
backoff sleeps performed (each `RETRY_DELAY * (attempt + 1)`). -/
structure ReqRun where
  result : Except ReqError Json
  attemptsMade : Nat
  sleeps : List Nat

/-- One step of the `for attempt in range(MAX_RETRIES)` loop, starting at
0-based index `attempt` with `fuel = maxRetries - attempt` iterations
left.  A response with status < 400 passes `raise_for_status` and is
returned (a JSON decode failure is an unexpected exception, re-raised);
a 4xx is re-raised immediately; a 5xx, connection error or timeout
records `last_exception` and, unless this was the last attempt, sleeps
`retryDelay * (attempt + 1)` before the next attempt.  When the loop
ends, `Exception(... after maxRetries attempts ... last error ...)`. -/
def makeRequestLoop (env : Nat → HttpAttempt) (maxRetries retryDelay : Nat) :
    Nat → Nat → Option LastErr → ReqRun
  | 0, attempt, last => ⟨.error (.exhausted maxRetries last), attempt, []⟩
  | fuel + 1, attempt, _ =>
      match env attempt with
      | .response status body json =>
          if status < 400 then
            match json with
            | some v => ⟨.ok v, attempt + 1, []⟩
            | none => ⟨.error (.unexpected "JSONDecodeError"), attempt + 1, []⟩
          else if status < 500 then
            ⟨.error (.clientError status body), attempt + 1, []⟩
          else
            let rest := makeRequestLoop env maxRetries retryDelay fuel (attempt + 1)
              (some (.httpStatus status body))
            if attempt < maxRetries - 1 then
              { rest with sleeps := retryDelay * (attempt + 1) :: rest.sleeps }
            else rest
      | .connectError msg =>
          let rest := makeRequestLoop env maxRetries retryDelay fuel (attempt + 1)
            (some (.connect msg))
          if attempt < maxRetries - 1 then
            { rest with sleeps := retryDelay * (attempt + 1) :: rest.sleeps }
          else rest
      | .timeoutError msg =>
          let rest := makeRequestLoop env maxRetries retryDelay fuel (attempt + 1)
            (some (.timeout msg))
          if attempt < maxRetries - 1 then
            { rest with sleeps := retryDelay * (attempt + 1) :: rest.sleeps }
          else rest
      | .otherError msg => ⟨.error (.unexpected msg), attempt + 1, []⟩

/-- Embedding of `_make_request` with explicit retry configuration. -/
def makeRequestWith (env : Nat → HttpAttempt) (maxRetries retryDelay : Nat) : ReqRun :=
  makeRequestLoop env maxRetries retryDelay maxRetries 0 none

/-- Embedding of `_make_request` at the configured defaults. -/
def makeRequest (env : Nat → HttpAttempt) : ReqRun :=
  makeRequestWith env MAX_RETRIES RETRY_DELAY

/-- Is this attempt outcome one the loop retries (5xx, connection
failure, timeout)? -/
def HttpAttempt.retryable : HttpAttempt → Bool
  | .response status _ _ => 500 ≤ status
  | .connectError _ => true
  | .timeoutError _ => true
  | .otherError _ => false

/-- The `last_exception` a retryable outcome leaves behind. -/
def HttpAttempt.asLastErr : HttpAttempt → Option LastErr
  | .response status body _ => some (.httpStatus status body)
  | .connectError msg => some (.connect msg)
  | .timeoutError msg => some (.timeout msg)
  | .otherError _ => none

-- ===========================================================================
-- `track_shipment` (src/tools.py): local-store lookup by id, container
-- number or master bill, returning a success or failure dict.
-- ===========================================================================

/-- The sources the spec's resolution chain names: the local persistence
store and the three vendor adapters configured in `config.py` and
exported by `adapters/__init__.py`. -/
inductive Source where
  | localStore
  | logitude
  | dpworld
  | trackingAPI
deriving DecidableEq, Repr

/-- All configured sources, local store first, vendors in the
configuration order of `config.py` / `adapters/__init__.py`. -/
def configuredSources : List Source :=
  [.localStore, .logitude, .dpworld, .trackingAPI]

/-- A row of the `shipments` table (database/models.py), the columns
`track_shipment` reads.  Nullable columns are `Option`s. -/
structure Shipment where
  id : String
  container_no : Option String
  master_bill : Option String
  status_code : Option String
  risk_flag : Bool
  origin_port : Option String
  destination_port : Option String
  eta : Option String
  vessel_name : Option String
  voyage_number : Option String
  agent_notes : Option String
deriving DecidableEq, Repr

/-- The WHERE clause of `track_shipment`'s query:
`(Shipment.id == identifier) | (Shipment.container_no == identifier) |
(Shipment.master_bill == identifier)` (a NULL column never matches). -/
def shipmentMatches (s : Shipment) (identifier : String) : Bool :=
  s.id == identifier || s.container_no == some identifier
    || s.master_bill == some identifier

/-- SQLAlchemy `result.scalar_one_or_none()`: `none` for no row, the row if unique,
`MultipleResultsFound` otherwise. -/
def scalarOneOrNone (rows : List Shipment) : Except String (Option Shipment) :=
  match rows with
  | [] => .ok none
  | [s] => .ok (some s)
  | _ => .error "Multiple rows were found when exactly one or none was required"

/-- The `"shipment"` dict `track_shipment` builds on success. -/
structure ShipmentView where
  id : String
  container_no : Option String
  master_bill : Option String
  status : Option String
  risk_flag : Bool
  origin : Option String
  destination : Option String
  eta : Option String
  vessel : Option String
  voyage : Option String
  /-- the value of `shipment.agent_notes or []`: the notes text, or `[]` when null/empty -/
  notes : Json

/-- The return dict of `track_shipment`: success with a shipment view,
or `{"success": false, "error": ...}`. -/
inductive TrackResult where
  | ok (shipment : ShipmentView)
  | fail (error : String)

/-- A `track_shipment` run: the returned dict plus the trace of
resolution sources the body consulted. -/
structure TrackRun where
  result : TrackResult
  sourcesTried : List Source

/-- Python `shipment.agent_notes or []`. -/
def notesOf (agent_notes : Option String) : Json :=
  match agent_notes with
  | some s => if s = "" then .arr [] else .str s
  | none => .arr []

/-- Embedding of `track_shipment(identifier)` over database state `db`: one SELECT on
the local `shipments` table; a unique match returns the tracking dict,
no match returns `{"success": false, "error": "Shipment not found: ..."}`,
and any exception (e.g. `MultipleResultsFound`) is caught and returned
as `{"success": false, "error": str(e)}`.  The body consults no other
source: the vendor adapters are never invoked. -/
def trackShipment (db : List Shipment) (identifier : String) : TrackRun :=
  match scalarOneOrNone (db.filter (shipmentMatches · identifier)) with
  | .error e => ⟨.fail e, [.localStore]⟩
  | .ok none => ⟨.fail ("Shipment not found: " ++ identifier), [.localStore]⟩
  | .ok (some s) =>
      ⟨.ok { id := s.id, container_no := s.container_no, master_bill := s.master_bill,
             status := s.status_code, risk_flag := s.risk_flag,
             origin := s.origin_port, destination := s.destination_port,
             eta := s.eta, vessel := s.vessel_name, voyage := s.voyage_number,
             notes := notesOf s.agent_notes },
       [.localStore]⟩

-- ===========================================================================
-- `LogitudeAdapter.fetch_shipment` (mock): builds a fixed raw payload for
-- any identifier and normalizes it.  Included to witness that the first
-- configured vendor answers every identifier, so a fallback chain —
-- had one existed — would have returned its record.
-- ===========================================================================

/-- The `mock_raw_data` dict of `LogitudeAdapter.fetch_shipment`
(`nowIso` stands for `datetime.utcnow().isoformat()`). -/
def logitudeMockRawData (identifier nowIso : String) : Json :=
  .obj [("referenceNumber", .str identifier),
        ("masterBillOfLading", .str "MAEU123456789"),
        ("containerDetails", .obj [("number", .str "MSCU1234567"),
                                   ("type", .str "40HC"),
                                   ("seal", .str "SL123456")]),
        ("vesselInfo", .obj [("name", .str "MSC GULSUN"),
                             ("voyageNumber", .str "025W"),
                             ("imo", .str "9454436")]),
        ("currentPosition", .obj [("latitude", .num (22.3193 : ℚ)),
                                  ("longitude", .num (114.1694 : ℚ)),
                                  ("locationName", .str "South China Sea")]),
        ("departureDate", .str "2025-12-10T08:00:00Z"),
        ("arrivalDate", .str "2025-12-25T14:30:00Z"),
        ("statusCode", .str "IN_TRANSIT"),
        ("statusMessage", .str "Container loaded on vessel, departed from Port of Shanghai"),
        ("createdAt", .str "2025-12-09T10:00:00Z"),
        ("lastUpdated", .str nowIso)]

/-- Embedding of `LogitudeAdapter.fetch_shipment`: normalize the mock payload. -/
def logitudeFetchShipment (identifier nowIso : String) : Except AdapterError StdShipment :=
  logitudeNormalizeResponse (logitudeMockRawData identifier nowIso)

-- ===========================================================================
-- Position simulator (`VesselTrackingAdapter._simulate_position`).
-- ===========================================================================

structure Coord where
  lat : ℚ
  lon : ℚ
deriving DecidableEq, Repr

/-- A route's straight-line coordinates (`start`/`end` in the source;
`end` is a Lean keyword, renamed `stop`). -/
structure RouteCoords where
  start : Coord
  stop : Coord
deriving DecidableEq, Repr

/-- The `"Asia-Europe"` entry of `ROUTES` (Shanghai → Rotterdam). -/
def asiaEuropeCoords : RouteCoords :=
  { start := { lat := 31.2, lon := 121.5 }, stop := { lat := 51.9, lon := 4.5 } }

/-- The `ROUTES` dict of `_simulate_position`. -/
def ROUTES : List (String × RouteCoords) :=
  [("Asia-Europe", asiaEuropeCoords),
   ("Trans-Pacific", { start := { lat := 33.7, lon := -118.2 },
                       stop := { lat := 1.3, lon := 103.9 } }),
   ("Asia-North America", { start := { lat := 29.9, lon := 121.6 },
                            stop := { lat := 33.7, lon := -118.2 } })]

def assocR : List (String × RouteCoords) → String → Option RouteCoords
  | [], _ => none
  | (k', v) :: rest, k => if k = k' then some v else assocR rest k

/-- Python `ROUTES.get(route, ROUTES["Asia-Europe"])`: an unknown route name
silently falls back to the Asia-Europe coordinates. -/
def routeCoordsFor (route : String) : RouteCoords :=
  (assocR ROUTES route).getD asiaEuropeCoords

/-- The `try:`/`except:` progress computation of `_simulate_position`.
`departure`/`eta` are the parse results of the voyage timestamps
(`none` = `fromisoformat` raised, caught by the bare `except`), `now`
the current time.  A zero total duration raises `ZeroDivisionError`,
also caught; both default to `progress = 0.5`. -/
def voyageProgress (departure eta : Option ℚ) (now : ℚ) : ℚ :=
  match departure, eta with
  | some dep, some arr =>
      let totalDuration := arr - dep
      let elapsed := now - dep
      if totalDuration = 0 then 1/2
      else min (max (elapsed / totalDuration) 0) 1
  | _, _ => 1/2

/-- The position part of `_simulate_position`'s result (display rounding
to 4 decimals, the constant-per-route heading, the random speed and the
timestamp field are not modelled — no claim concerns them).
`jitterLat`/`jitterLon` are the injected `random.uniform(-0.5, 0.5)`
draws added to the interpolated coordinate. -/
structure SimPosition where
  lat : ℚ
  lon : ℚ
  progress : ℚ
deriving DecidableEq, Repr

/-- Embedding of `_simulate_position`: route lookup (with silent Asia-Europe default),
progress from the voyage times, linear interpolation plus jitter. -/
def simulatePosition (route : String) (departure eta : Option ℚ)
    (now jitterLat jitterLon : ℚ) : SimPosition :=
  let routeCoords := routeCoordsFor route
  let progress := voyageProgress departure eta now
  let lat := routeCoords.start.lat + (routeCoords.stop.lat - routeCoords.start.lat) * progress
  let lon := routeCoords.start.lon + (routeCoords.stop.lon - routeCoords.start.lon) * progress
  { lat := lat + jitterLat, lon := lon + jitterLon, progress := progress }

-- ===========================================================================
-- Helper lemmas on the embedding.
-- ===========================================================================

/-- The error message of a `track_shipment` result, when it is a failure. -/
def TrackResult.errorMsg : TrackResult → Option String
  | .fail e => some e
  | .ok _ => none

theorem except_bind_ok {α β : Type} (x : Except String α) (f : α → Except String β) (b : β) :
    (x >>= f = Except.ok b) ↔ ∃ a, x = Except.ok a ∧ f a = Except.ok b := by
  cases x <;> simp [Bind.bind, Except.bind]

theorem except_bind_error {α β : Type} (x : Except String α) (f : α → Except String β)
    (e : String) :
    (x >>= f = Except.error e) ↔
      x = Except.error e ∨ ∃ a, x = Except.ok a ∧ f a = Except.error e := by
  cases x <;> simp [Bind.bind, Except.bind]

theorem except_pure_ok {α : Type} (a b : α) :
    (pure a : Except String α) = Except.ok b ↔ a = b := by
  simp [pure, Except.pure]

/-- Values produced by an association-list lookup (with `UNKNOWN` default)
stay inside any set containing the list's values and `UNKNOWN`. -/
theorem assocS_getD_mem (m : List (String × String)) (s : String)
    (h : ∀ p ∈ m, p.2 ∈ STATUS_CODES) (hu : "UNKNOWN" ∈ STATUS_CODES) :
    (assocS m s).getD "UNKNOWN" ∈ STATUS_CODES := by
  induction m with
  | nil => simpa [assocS] using hu
  | cons p rest ih =>
      obtain ⟨k, v⟩ := p
      by_cases hs : s = k
      · simpa [assocS, hs] using h (k, v) (by simp)
      · simpa [assocS, hs] using ih (fun q hq => h q (by simp [hq]))

/-- The substring-matching loop only produces table values or `UNKNOWN`. -/
theorem trackingStatusLoop_mem (m : List (String × String)) (su : String)
    (h : ∀ p ∈ m, p.2 ∈ STATUS_CODES) (hu : "UNKNOWN" ∈ STATUS_CODES) :
    trackingStatusLoop m su ∈ STATUS_CODES := by
  induction m with
  | nil => simpa [trackingStatusLoop] using hu
  | cons p rest ih =>
      obtain ⟨k, v⟩ := p
      by_cases hc : strContains su k
      · simpa [trackingStatusLoop, hc] using h (k, v) (by simp)
      · simpa [trackingStatusLoop, hc] using ih (fun q hq => h q (by simp [hq]))

-- ===========================================================================
-- C10 — external normalizers never populate the flags fields.
-- ===========================================================================

/-- C10: every canonical record produced by an external vendor normalizer
(Logitude, DP World, generic tracking) has `is_risk = False` and
`agent_notes = None`: the flags are never populated from vendor data. -/
theorem vendor_normalizers_never_set_flags (raw : Json) (r : StdShipment)
    (h : logitudeNormalizeResponse raw = .ok r ∨ dpworldNormalizeResponse raw = .ok r ∨
         trackingNormalizeResponse raw = .ok r) :
    r.flags.is_risk = false ∧ r.flags.agent_notes = Json.null := by
  have hbody : logitudeNormalizeBody raw = .ok r ∨ dpworldNormalizeBody raw = .ok r ∨
      trackingNormalizeBody raw = .ok r := by
    rcases h with h | h | h
    · unfold logitudeNormalizeResponse at h
      left; cases hb : logitudeNormalizeBody raw <;> simp [hb] at h
      simp [h]
    · unfold dpworldNormalizeResponse at h
      right; left; cases hb : dpworldNormalizeBody raw <;> simp [hb] at h
      simp [h]
    · unfold trackingNormalizeResponse at h
      right; right; cases hb : trackingNormalizeBody raw <;> simp [hb] at h
      simp [h]
  rcases hbody with h | h | h
  · simp only [logitudeNormalizeBody, except_bind_ok, except_pure_ok] at h
    obtain ⟨_, -, _, -, _, -, _, -, _, -, _, -, _, -, _, -, _, -, _, -, _, -, _, -, _, -,
      _, -, _, -, _, -, _, -, _, -, _, -, _, -, _, -, rfl⟩ := h
    exact ⟨rfl, rfl⟩
  · simp only [dpworldNormalizeBody, except_bind_ok, except_pure_ok] at h
    obtain ⟨_, -, _, -, _, -, _, -, _, -, _, -, _, -, _, -, _, -, _, -, _, -, _, -, _, -,
      _, -, _, -, _, -, rfl⟩ := h
    exact ⟨rfl, rfl⟩
  · simp only [trackingNormalizeBody, except_bind_ok, except_pure_ok] at h
    obtain ⟨_, -, _, -, _, -, _, -, _, -, _, -, _, -, _, -, _, -, _, -, _, -, _, -, _, -,
      _, -, _, -, _, -, _, -, rfl⟩ := h
    exact ⟨rfl, rfl⟩

/-- The record a normalizer produces for an empty payload: every
optional field null, status `UNKNOWN`, flags untouched. -/
def emptyPayloadRecord : StdShipment :=
  { id := .null,
    tracking := { container := .null, vessel := .null, voyage := .null,
                  location := { lat := .null, lng := .null, name := .null } },
    schedule := { etd := .null, eta := .null },
    status := { code := "UNKNOWN", description := .null },
    flags := { is_risk := false, agent_notes := .null },
    metadata := { master_bill := .null, created_at := .null, updated_at := .null } }

/-- Witness for C10 at the empty payload, first disjunct (Logitude). -/
theorem vendor_normalizers_never_set_flags_witness :
    emptyPayloadRecord.flags.is_risk = false ∧
    emptyPayloadRecord.flags.agent_notes = Json.null :=
  vendor_normalizers_never_set_flags (Json.obj []) emptyPayloadRecord (Or.inl rfl)

/-- When no table key occurs in the status, the matching loop returns
`UNKNOWN`. -/
theorem trackingStatusLoop_unmatched (m : List (String × String)) (su : String)
    (h : ∀ p ∈ m, strContains su p.1 = false) : trackingStatusLoop m su = "UNKNOWN" := by
  induction m with
  | nil => rfl
  | cons p rest ih =>
      obtain ⟨k, v⟩ := p
      have hk : strContains su k = false := h (k, v) (by simp)
      simpa [trackingStatusLoop, hk] using ih (fun q hq => h q (by simp [hq]))

-- ===========================================================================
-- C5 — status translation stays inside the closed StatusCode enumeration.
-- ===========================================================================

/-- C5: for every vendor status value that is a string or null/missing,
each vendor's status translation returns (never raises) a code in the
closed enumeration {BOOKED, IN_TRANSIT, AT_PORT, CUSTOMS_HOLD, DELAYED,
DELIVERED, UNKNOWN}; for the dedicated vendors (Logitude, DP World) the
result is the table's mapped value when the key is covered and `UNKNOWN`
when not; the generic tracking translation also yields `UNKNOWN` when no
table key occurs in the uppercased status. -/
theorem status_translation_closed (x : Json)
    (hx : x = Json.null ∨ ∃ s, x = Json.str s) :
    ∃ cL cD cT : String,
      logitudeNormalizeStatusCode x = .ok cL ∧ cL ∈ STATUS_CODES ∧
      dpworldNormalizeStatusCode x = .ok cD ∧ cD ∈ STATUS_CODES ∧
      trackingNormalizeStatusCode x = .ok cT ∧ cT ∈ STATUS_CODES ∧
      (∀ s v, x = Json.str s → assocS logitudeStatusMap s = some v → cL = v) ∧
      (∀ s, x = Json.str s → assocS logitudeStatusMap s = none → cL = "UNKNOWN") ∧
      (∀ s v, x = Json.str s → assocS dpworldStatusMap s = some v → cD = v) ∧
      (∀ s, x = Json.str s → assocS dpworldStatusMap s = none → cD = "UNKNOWN") ∧
      (∀ s, x = Json.str s →
        (∀ p ∈ trackingStatusMap, strContains (strUpper s) p.1 = false) → cT = "UNKNOWN") ∧
      (x = Json.null → cL = "UNKNOWN" ∧ cD = "UNKNOWN" ∧ cT = "UNKNOWN") := by
  have hvalL : ∀ p ∈ logitudeStatusMap, p.2 ∈ STATUS_CODES := by decide
  have hvalD : ∀ p ∈ dpworldStatusMap, p.2 ∈ STATUS_CODES := by decide
  have hvalT : ∀ p ∈ trackingStatusMap, p.2 ∈ STATUS_CODES := by decide
  have hu : "UNKNOWN" ∈ STATUS_CODES := by decide
  rcases hx with rfl | ⟨s, rfl⟩
  · exact ⟨"UNKNOWN", "UNKNOWN", "UNKNOWN", rfl, hu, rfl, hu, rfl, hu,
      by simp, by simp, by simp, by simp, by simp,
      fun _ => ⟨rfl, rfl, rfl⟩⟩
  · by_cases hs : s = ""
    · subst hs
      refine ⟨(assocS logitudeStatusMap "").getD "UNKNOWN",
              (assocS dpworldStatusMap "").getD "UNKNOWN", "UNKNOWN",
              rfl, assocS_getD_mem _ _ hvalL hu,
              rfl, assocS_getD_mem _ _ hvalD hu,
              by simp [trackingNormalizeStatusCode, pyFalsy], hu,
              ?_, ?_, ?_, ?_, by simp, by simp⟩
      · intro t v ht hv
        cases ht
        simp [hv]
      · intro t ht hv
        cases ht
        simp [hv]
      · intro t v ht hv
        cases ht
        simp [hv]
      · intro t ht hv
        cases ht
        simp [hv]
    · refine ⟨(assocS logitudeStatusMap s).getD "UNKNOWN",
              (assocS dpworldStatusMap s).getD "UNKNOWN",
              trackingStatusLoop trackingStatusMap (strUpper s),
              rfl, assocS_getD_mem _ _ hvalL hu,
              rfl, assocS_getD_mem _ _ hvalD hu,
              by simp [trackingNormalizeStatusCode, pyFalsy, hs],
              trackingStatusLoop_mem _ _ hvalT hu,
              ?_, ?_, ?_, ?_, ?_, by simp⟩
      · intro t v ht hv
        cases ht
        simp [hv]
      · intro t ht hv
        cases ht
        simp [hv]
      · intro t v ht hv
        cases ht
        simp [hv]
      · intro t ht hv
        cases ht
        simp [hv]
      · intro t ht hnone
        cases ht
        exact trackingStatusLoop_unmatched _ _ hnone

/-- Witness for C5 at the covered Logitude status `"PORT_ARRIVAL"`. -/
theorem status_translation_closed_witness :
    ∃ cL cD cT : String,
      logitudeNormalizeStatusCode (Json.str "PORT_ARRIVAL") = .ok cL ∧ cL ∈ STATUS_CODES ∧
      dpworldNormalizeStatusCode (Json.str "PORT_ARRIVAL") = .ok cD ∧ cD ∈ STATUS_CODES ∧
      trackingNormalizeStatusCode (Json.str "PORT_ARRIVAL") = .ok cT ∧ cT ∈ STATUS_CODES ∧
      (∀ s v, Json.str "PORT_ARRIVAL" = Json.str s → assocS logitudeStatusMap s = some v → cL = v) ∧
      (∀ s, Json.str "PORT_ARRIVAL" = Json.str s → assocS logitudeStatusMap s = none → cL = "UNKNOWN") ∧
      (∀ s v, Json.str "PORT_ARRIVAL" = Json.str s → assocS dpworldStatusMap s = some v → cD = v) ∧
      (∀ s, Json.str "PORT_ARRIVAL" = Json.str s → assocS dpworldStatusMap s = none → cD = "UNKNOWN") ∧
      (∀ s, Json.str "PORT_ARRIVAL" = Json.str s →
        (∀ p ∈ trackingStatusMap, strContains (strUpper s) p.1 = false) → cT = "UNKNOWN") ∧
      (Json.str "PORT_ARRIVAL" = Json.null → cL = "UNKNOWN" ∧ cD = "UNKNOWN" ∧ cT = "UNKNOWN") :=
  status_translation_closed (Json.str "PORT_ARRIVAL") (Or.inr ⟨"PORT_ARRIVAL", rfl⟩)

-- ===========================================================================
-- C6 — generic tracking adapter: substring matching, first table key wins.
-- ===========================================================================

/-- The matching loop returns the value of the i-th table entry when its
key occurs in the status and no earlier key does. -/
theorem trackingStatusLoop_first (m : List (String × String)) (su : String) :
    ∀ (i : Nat) (k v : String), m.get? i = some (k, v) →
      strContains su k = true →
      (∀ p ∈ m.take i, strContains su p.1 = false) →
      trackingStatusLoop m su = v := by
  induction m with
  | nil => intro i k v hi; simp at hi
  | cons q rest ih =>
      obtain ⟨k0, v0⟩ := q
      intro i k v hi hk hprior
      cases i with
      | zero =>
          simp only [List.get?] at hi
          cases hi
          simp [trackingStatusLoop, hk]
      | succ j =>
          have hk0 : strContains su k0 = false :=
            hprior (k0, v0) (by simp [List.take])
          simp only [List.get?] at hi
          simpa [trackingStatusLoop, hk0] using
            ih j k v hi hk (fun p hp => hprior p (by simp [List.take, hp]))

/-- C6: the generic tracking normalizer matches by substring over the
uppercased vendor status; when several table keys occur, the value of
the first key in the fixed table order (PENDING, BOOKED, IN TRANSIT,
TRANSIT, AT PORT, PORT, CUSTOMS, DELIVERED, COMPLETE, DELAYED,
EXCEPTION) wins; with no key occurring, the result is `UNKNOWN`. -/
theorem tracking_substring_first_match (s : String) :
    (∀ (i : Nat) (k v : String), trackingStatusMap.get? i = some (k, v) →
        strContains (strUpper s) k = true →
        (∀ p ∈ trackingStatusMap.take i, strContains (strUpper s) p.1 = false) →
        trackingNormalizeStatusCode (Json.str s) = .ok v) ∧
    ((∀ p ∈ trackingStatusMap, strContains (strUpper s) p.1 = false) →
        trackingNormalizeStatusCode (Json.str s) = .ok "UNKNOWN") := by
  constructor
  · intro i k v hi hk hprior
    have hne : s ≠ "" := by
      intro hnil
      subst hnil
      have hkey : k ≠ "" := by
        have hmem : (k, v) ∈ trackingStatusMap := List.get?_mem hi
        have : ∀ p ∈ trackingStatusMap, p.1 ≠ "" := by decide
        exact this (k, v) hmem
      have : strContains (strUpper "") k = false := by
        cases k with
        | mk data =>
            cases data with
            | nil => exact absurd rfl hkey
            | cons c cs => rfl
      rw [this] at hk
      exact Bool.false_ne_true hk
    simp only [trackingNormalizeStatusCode, pyFalsy]
    rw [if_neg (by simpa using hne)]
    exact congrArg Except.ok (trackingStatusLoop_first _ _ i k v hi hk hprior)
  · intro hnone
    by_cases hs : s = ""
    · subst hs; rfl
    · simp only [trackingNormalizeStatusCode, pyFalsy]
      rw [if_neg (by simpa using hs)]
      exact congrArg Except.ok (trackingStatusLoop_unmatched _ _ hnone)

/-- Witness for C6 at the spec's free-text example: both `AT PORT`
(index 4) and `CUSTOMS` (index 6) occur, the earlier key wins. -/
theorem tracking_substring_first_match_witness :
    trackingNormalizeStatusCode (Json.str "at port, awaiting customs") = .ok "AT_PORT" :=
  (tracking_substring_first_match "at port, awaiting customs").1 4 "AT PORT" "AT_PORT"
    (by decide) (by decide) (by decide)

-- ===========================================================================
-- C3 — a 4xx response fails immediately: one attempt, no retry, no sleep.
-- ===========================================================================

/-- C3: when the first HTTP attempt receives a response with status in
400–499, `_make_request` makes exactly that one attempt, performs no
backoff sleep, and raises the `HTTPStatusError` carrying the response's
status and body (the non-retryable client-error path). -/
theorem client_error_fails_immediately (env : Nat → HttpAttempt)
    (status : Nat) (body : String) (json : Option Json)
    (h0 : env 0 = .response status body json) (h4 : 400 ≤ status) (h5 : status < 500) :
    makeRequest env = ⟨.error (.clientError status body), 1, []⟩ := by
  have hnot : ¬ status < 400 := Nat.not_lt.mpr h4
  simp [makeRequest, makeRequestWith, MAX_RETRIES, RETRY_DELAY, makeRequestLoop,
    h0, hnot, h5]

/-- Witness for C3: a vendor answering HTTP 404. -/
theorem client_error_fails_immediately_witness :
    makeRequest (fun _ => .response 404 "Not Found" none) =
      ⟨.error (.clientError 404 "Not Found"), 1, []⟩ :=
  client_error_fails_immediately (fun _ => .response 404 "Not Found" none)
    404 "Not Found" none rfl (by norm_num) (by norm_num)

-- ===========================================================================
-- C4 — retryable-only failures: linear backoff, bounded attempts,
--       ExhaustedRetries carrying the last error.
-- ===========================================================================

/-- Loop invariant for the all-retryable run: starting at `attempt` with
`fuel = maxRetries - attempt ≥ 1` remaining iterations, the run makes
every remaining attempt, sleeps `retryDelay * (a + 1)` after each
non-final attempt `a`, and ends with the exhaustion error carrying the
last attempt's failure. -/
theorem makeRequestLoop_all_retryable (env : Nat → HttpAttempt) (maxRetries retryDelay : Nat) :
    ∀ (fuel attempt : Nat) (last : Option LastErr),
      attempt + fuel = maxRetries → 1 ≤ fuel →
      (∀ n, attempt ≤ n → n < maxRetries → (env n).retryable = true) →
      makeRequestLoop env maxRetries retryDelay fuel attempt last =
        ⟨.error (.exhausted maxRetries ((env (maxRetries - 1)).asLastErr)),
         maxRetries,
         (List.range' attempt (maxRetries - 1 - attempt)).map
           (fun a => retryDelay * (a + 1))⟩ := by
  intro fuel
  induction fuel with
  | zero => intro attempt last _ h1; exact absurd h1 (by norm_num)
  | succ f ih =>
      intro attempt last hsum _ hre
      have hatt : attempt < maxRetries := by omega
      have hrₐ : (env attempt).retryable = true := hre attempt le_rfl hatt
      rcases hf : f.eq_zero_or_pos with hf0 | hfpos
      all_goals clear hf
      · -- last iteration: attempt = maxRetries - 1
        subst hf0
        have hlastidx : attempt = maxRetries - 1 := by omega
        have hnoSleep : ¬ attempt < maxRetries - 1 := by omega
        have hrange : maxRetries - 1 - attempt = 0 := by omega
        cases henv : env attempt with
        | response status body json =>
            have h500 : 500 ≤ status := by
              have := hrₐ
              rw [henv] at this
              simpa [HttpAttempt.retryable] using this
            have hnot4 : ¬ status < 400 := by omega
            have hnot5 : ¬ status < 500 := by omega
            simp [makeRequestLoop, henv, hnot4, hnot5, hnoSleep, hrange,
              ← hlastidx, HttpAttempt.asLastErr, hsum.symm]
        | connectError msg =>
            simp [makeRequestLoop, henv, hnoSleep, hrange, ← hlastidx,
              HttpAttempt.asLastErr, hsum.symm]
        | timeoutError msg =>
            simp [makeRequestLoop, henv, hnoSleep, hrange, ← hlastidx,
              HttpAttempt.asLastErr, hsum.symm]
        | otherError msg =>
            rw [henv] at hrₐ
            simp [HttpAttempt.retryable] at hrₐ
      · -- at least one more iteration after this one
        have hSleep : attempt < maxRetries - 1 := by omega
        have hsum' : attempt + 1 + f = maxRetries := by omega
        have hre' : ∀ n, attempt + 1 ≤ n → n < maxRetries → (env n).retryable = true :=
          fun n hn hn' => hre n (by omega) hn'
        have hrange : maxRetries - 1 - attempt = (maxRetries - 1 - (attempt + 1)) + 1 := by
          omega
        cases henv : env attempt with
        | response status body json =>
            have h500 : 500 ≤ status := by
              have := hrₐ
              rw [henv] at this
              simpa [HttpAttempt.retryable] using this
            have hnot4 : ¬ status < 400 := by omega
            have hnot5 : ¬ status < 500 := by omega
            simp [makeRequestLoop, henv, hnot4, hnot5, hSleep,
              ih (attempt + 1) (some (.httpStatus status body)) hsum' hfpos hre',
              hrange, List.range'_succ]
        | connectError msg =>
            simp [makeRequestLoop, henv, hSleep,
              ih (attempt + 1) (some (.connect msg)) hsum' hfpos hre',
              hrange, List.range'_succ]
        | timeoutError msg =>
            simp [makeRequestLoop, henv, hSleep,
              ih (attempt + 1) (some (.timeout msg)) hsum' hfpos hre',
              hrange, List.range'_succ]
        | otherError msg =>
            rw [henv] at hrₐ
            simp [HttpAttempt.retryable] at hrₐ

/-- C4: when every attempt fails retryably (HTTP ≥ 500, connection
failure, or timeout), `_make_request` makes exactly `maxRetries` HTTP
attempts (so never more), sleeps `retryDelay * attemptNumber` between
consecutive attempts (attempt numbers starting at 1, no sleep after the
final attempt), and then fails with the exhaustion error carrying the
last attempt's underlying failure. -/
theorem retryable_failures_exhaust_retries (env : Nat → HttpAttempt)
    (maxRetries retryDelay : Nat) (hpos : 1 ≤ maxRetries)
    (hre : ∀ n, n < maxRetries → (env n).retryable = true) :
    makeRequestWith env maxRetries retryDelay =
      ⟨.error (.exhausted maxRetries ((env (maxRetries - 1)).asLastErr)),
       maxRetries,
       (List.range (maxRetries - 1)).map (fun a => retryDelay * (a + 1))⟩ := by
  have h := makeRequestLoop_all_retryable env maxRetries retryDelay maxRetries 0 none
    (by omega) hpos (fun n _ hn => hre n hn)
  simpa [makeRequestWith, List.range_eq_range'] using h

/-- Witness for C4: a sustained HTTP 503 at the default configuration
(`MAX_RETRIES = 3`, `RETRY_DELAY = 1`): 3 attempts, sleeps `[1, 2]`,
exhaustion carrying the 503. -/
theorem retryable_failures_exhaust_retries_witness :
    makeRequest (fun _ => .response 503 "Service Unavailable" none) =
      ⟨.error (.exhausted 3 (some (.httpStatus 503 "Service Unavailable"))), 3, [1, 2]⟩ := by
  show makeRequestWith (fun _ => .response 503 "Service Unavailable" none) 3 1 = _
  rw [retryable_failures_exhaust_retries (fun _ => .response 503 "Service Unavailable" none)
    3 1 (by norm_num) (fun n _ => rfl)]
  rfl

-- ===========================================================================
-- C8 — progress fraction: clamp((now-dep)/(arr-dep), 0, 1), 0.5 fail-soft.
-- ===========================================================================

/-- C8: for a simulated position query, the progress fraction equals
`clamp((now - departureTime) / (arrivalTime - departureTime), 0, 1)`:
0 when `now` equals the departure time, 1 when `now` reaches or passes
the arrival time; a zero duration or a malformed timestamp defaults the
fraction to 0.5 without raising. -/
theorem simulate_progress_clamp (route : String) (dep arr now jLat jLon : ℚ) :
    (arr - dep ≠ 0 →
      (simulatePosition route (some dep) (some arr) now jLat jLon).progress =
        min (max ((now - dep) / (arr - dep)) 0) 1) ∧
    (arr - dep = 0 →
      (simulatePosition route (some dep) (some arr) now jLat jLon).progress = 1/2) ∧
    (∀ eta, (simulatePosition route none eta now jLat jLon).progress = 1/2) ∧
    ((simulatePosition route (some dep) none now jLat jLon).progress = 1/2) ∧
    (dep < arr → now = dep →
      (simulatePosition route (some dep) (some arr) now jLat jLon).progress = 0) ∧
    (dep < arr → arr ≤ now →
      (simulatePosition route (some dep) (some arr) now jLat jLon).progress = 1) := by
  refine ⟨?_, ?_, ?_, ?_, ?_, ?_⟩
  · intro h
    simp [simulatePosition, voyageProgress, h]
  · intro h
    simp [simulatePosition, voyageProgress, h]
  · intro eta
    cases eta <;> rfl
  · rfl
  · intro hlt hnow
    have hne : arr - dep ≠ 0 := sub_ne_zero_of_ne (ne_of_gt hlt)
    simp [simulatePosition, voyageProgress, hne, hnow, sub_self, zero_div]
  · intro hlt hge
    have hpos : 0 < arr - dep := sub_pos.mpr hlt
    have hone : 1 ≤ (now - dep) / (arr - dep) :=
      (one_le_div hpos).mpr (by linarith)
    have hmax : max ((now - dep) / (arr - dep)) 0 = (now - dep) / (arr - dep) :=
      max_eq_left (le_trans zero_le_one hone)
    simp [simulatePosition, voyageProgress, sub_ne_zero_of_ne (ne_of_gt hlt), hmax,
      min_eq_right hone]

/-- Witness for C8: departure 0, arrival 10, queried at the arrival
time: the fraction is exactly 1. -/
theorem simulate_progress_clamp_witness :
    (simulatePosition "Asia-Europe" (some 0) (some 10) 10 0 0).progress = 1 :=
  (simulate_progress_clamp "Asia-Europe" 0 10 10 0 0).2.2.2.2.2
    (by norm_num) (by norm_num)

-- ===========================================================================
-- C9 — unknown route: the claim says `UnknownRoute{name}`, the code
-- silently falls back to `ROUTES["Asia-Europe"]`.
-- ===========================================================================

/-- Counterexample to C9 as stated: `"South-Atlantic"` names no route in
the static table, yet `_simulate_position` does not fail — it returns a
position interpolated on the Asia-Europe coordinates (midpoint of
Shanghai→Rotterdam at 50% progress). -/
theorem unknown_route_no_failure_cex :
    routeCoordsFor "South-Atlantic" = asiaEuropeCoords ∧
    simulatePosition "South-Atlantic" (some 0) (some 10) 5 0 0 =
      { lat := 41.55, lon := 63, progress := 1/2 } := by
  constructor
  · rfl
  · have hr : routeCoordsFor "South-Atlantic" = asiaEuropeCoords := rfl
    have hp : voyageProgress (some 0) (some 10) 5 = 1/2 := by
      norm_num [voyageProgress]
    simp only [simulatePosition, hr, hp, asiaEuropeCoords]
    norm_num [SimPosition.mk.injEq]

/-- C9 (amended): an unknown route name does not fail; the coordinate
lookup silently defaults to the Asia-Europe route, so the simulation
behaves exactly as for `"Asia-Europe"`. -/
theorem unknown_route_falls_back (route : String)
    (h : assocR ROUTES route = none) :
    routeCoordsFor route = asiaEuropeCoords ∧
    ∀ dep arr now jLat jLon,
      simulatePosition route dep arr now jLat jLon =
        simulatePosition "Asia-Europe" dep arr now jLat jLon := by
  have hr : routeCoordsFor route = asiaEuropeCoords := by
    simp [routeCoordsFor, h]
  have hAE : routeCoordsFor "Asia-Europe" = asiaEuropeCoords := rfl
  exact ⟨hr, fun dep arr now jLat jLon => by simp [simulatePosition, hr, hAE]⟩

/-- Witness for the amended C9 at the unknown route `"South-Atlantic"`. -/
theorem unknown_route_falls_back_witness :
    routeCoordsFor "South-Atlantic" = asiaEuropeCoords ∧
    ∀ dep arr now jLat jLon,
      simulatePosition "South-Atlantic" dep arr now jLat jLon =
        simulatePosition "Asia-Europe" dep arr now jLat jLon :=
  unknown_route_falls_back "South-Atlantic" (by decide)

-- ===========================================================================
-- C1 — claim: an unresolvable identifier yields a PartialFailure with one
-- AdapterAttempt per configured source.  The code returns a plain
-- `{"success": false, "error": ...}` dict after consulting only the
-- local store: no per-source attempt list exists.
-- ===========================================================================

/-- Counterexample to C1 as stated: for the unresolvable identifier
`"SHIP-404"` on an empty local store, the sources consulted are
`[localStore]`, not one attempt per configured source (local store plus
the three configured vendors); the returned failure carries only an
error string. -/
theorem track_missing_no_attempt_list_cex :
    (trackShipment [] "SHIP-404").sourcesTried = [Source.localStore] ∧
    (trackShipment [] "SHIP-404").sourcesTried ≠ configuredSources ∧
    (trackShipment [] "SHIP-404").result.errorMsg = some "Shipment not found: SHIP-404" := by
  refine ⟨rfl, ?_, rfl⟩
  decide

/-- C1 (amended): for every identifier the local store cannot resolve,
`track_shipment` returns the structured not-found failure naming the
identifier — no unhandled error reaches the caller — after consulting
only the local store; no per-source attempt list is built and no vendor
is attempted. -/
theorem track_unresolved_returns_plain_failure (db : List Shipment) (identifier : String)
    (h : db.filter (shipmentMatches · identifier) = []) :
    trackShipment db identifier =
      ⟨.fail ("Shipment not found: " ++ identifier), [Source.localStore]⟩ := by
  unfold trackShipment
  rw [h]
  rfl

/-- Witness for the amended C1 on the empty store. -/
theorem track_unresolved_returns_plain_failure_witness :
    trackShipment [] "JOB-2025-404" =
      ⟨.fail ("Shipment not found: " ++ "JOB-2025-404"), [Source.localStore]⟩ :=
  track_unresolved_returns_plain_failure [] "JOB-2025-404" rfl

-- ===========================================================================
-- C2 — claim: with no local match the resolver iterates the configured
-- vendors and returns the first normalized record.  The code never
-- invokes any vendor adapter.
-- ===========================================================================

/-- Counterexample to C2 as stated: on an empty local store,
`"SHIP-404"` has no local match and the first configured vendor's
(mock) fetch would successfully return a normalized record for it, yet
`track_shipment` invokes no vendor source and returns a not-found
failure instead of that record. -/
theorem track_no_vendor_record_cex :
    Source.logitude ∉ (trackShipment [] "SHIP-404").sourcesTried ∧
    Source.dpworld ∉ (trackShipment [] "SHIP-404").sourcesTried ∧
    Source.trackingAPI ∉ (trackShipment [] "SHIP-404").sourcesTried ∧
    (trackShipment [] "SHIP-404").result.errorMsg.isSome = true ∧
    (logitudeFetchShipment "SHIP-404" "2026-01-05T00:00:00").isOk = true := by
  refine ⟨?_, ?_, ?_, rfl, rfl⟩ <;> decide

/-- C2 (amended): `track_shipment` consults only the local store — for
every database state and identifier, no vendor adapter's execution core
or normalizer is ever invoked (so in particular, an identifier with no
local match produces a failure rather than a vendor record). -/
theorem track_never_invokes_vendors (db : List Shipment) (identifier : String) :
    (trackShipment db identifier).sourcesTried = [Source.localStore] := by
  unfold trackShipment
  cases scalarOneOrNone (db.filter (shipmentMatches · identifier)) with
  | error e => rfl
  | ok o => cases o <;> rfl

-- ===========================================================================
-- C7 — normalizer failure conditions.
-- ===========================================================================

/-- Is the value a string? -/
def Json.isStr : Json → Bool
  | .str _ => true
  | _ => false

/-- A Logitude payload is structurally unparseable when it is not a dict,
when one of the nested fields (`containerDetails`, `vesselInfo`,
`currentPosition` — `{}` when absent) is present but not a dict, or when
the `statusCode` value is unhashable (a dict or list).  These are
exactly the conditions under which the `try` body of
`LogitudeAdapter.normalize_response` raises. -/
def logitudeStructurallyBad (raw : Json) : Bool :=
  match raw with
  | .obj fs =>
      !((assocJ fs "containerDetails").getD (.obj [])).isObj
      || !((assocJ fs "vesselInfo").getD (.obj [])).isObj
      || !((assocJ fs "currentPosition").getD (.obj [])).isObj
      || !((assocJ fs "statusCode").getD .null).hashable
  | _ => true

/-- The fields of a dict value (`[]` for non-dicts; only meaningful
under an `isObj` guard). -/
def Json.objFields : Json → List (String × Json)
  | .obj fs => fs
  | _ => []

/-- A tracking payload is structurally unparseable when it is not a dict,
when a present `data` field is not a dict, or when the `status` value
inside `data` is truthy but not a string (no `.upper()`). -/
def trackingStructurallyBad (raw : Json) : Bool :=
  match raw with
  | .obj fs =>
      !((assocJ fs "data").getD (.obj [])).isObj
      || !(pyFalsy ((assocJ ((assocJ fs "data").getD (.obj [])).objFields "status").getD .null)
           || ((assocJ ((assocJ fs "data").getD (.obj [])).objFields "status").getD .null).isStr)
  | _ => true

theorem except_ok_bind {α β : Type} (a : α) (f : α → Except String β) :
    (Except.ok a >>= f) = f a := rfl

theorem except_error_bind {α β : Type} (e : String) (f : α → Except String β) :
    ((Except.error e : Except String α) >>= f) = .error e := rfl

theorem except_pure_eq_ok {α : Type} (a : α) :
    (pure a : Except String α) = Except.ok a := rfl

@[simp] theorem except_isOk_ok {α : Type} (a : α) :
    (Except.ok a : Except String α).isOk = true := rfl

@[simp] theorem except_isOk_error {α : Type} (e : String) :
    (Except.error e : Except String α).isOk = false := rfl

@[simp] theorem jget_obj (fs : List (String × Json)) (k : String) :
    jget (.obj fs) k = .ok ((assocJ fs k).getD .null) := rfl

@[simp] theorem jgetD_obj (fs : List (String × Json)) (k : String) (d : Json) :
    jgetD (.obj fs) k d = .ok ((assocJ fs k).getD d) := rfl

@[simp] theorem isObj_obj (fs : List (String × Json)) : (Json.obj fs).isObj = true := rfl

/-- Either a value is a dict, or every `.get` on it raises. -/
theorem json_obj_or (j : Json) :
    (∃ l, j = .obj l) ∨
    (j.isObj = false ∧ ∀ k, jget j k = .error "AttributeError: no attribute get") := by
  cases j <;> simp [Json.isObj, jget]

/-- A status-table lookup succeeds exactly on hashable keys. -/
theorem statusMapGet_isOk (m : List (String × String)) (x : Json) :
    (statusMapGet m x).isOk = x.hashable := by
  cases x <;> simp [statusMapGet, Json.hashable, Except.isOk]

/-- The tracking status translation succeeds exactly on falsy-or-string
values. -/
theorem trackingStatusCode_isOk (x : Json) :
    (trackingNormalizeStatusCode x).isOk = (pyFalsy x || x.isStr) := by
  by_cases hf : pyFalsy x = true
  · simp [trackingNormalizeStatusCode, hf, Except.isOk]
  · cases x <;> simp_all [trackingNormalizeStatusCode, pyFalsy, Json.isStr, Except.isOk]

/-- The Logitude `try` body, evaluated when the nested fields are dicts
and the status value is hashable: every optional field defaults to null
when its key is absent. -/
theorem logitudeNormalizeBody_ok_shape (fs cdl vil cpl : List (String × Json)) (c : String)
    (hcd : (assocJ fs "containerDetails").getD (.obj []) = .obj cdl)
    (hvi : (assocJ fs "vesselInfo").getD (.obj []) = .obj vil)
    (hcp : (assocJ fs "currentPosition").getD (.obj []) = .obj cpl)
    (hsc : logitudeNormalizeStatusCode ((assocJ fs "statusCode").getD .null) = .ok c) :
    logitudeNormalizeBody (.obj fs) = .ok
      { id := (assocJ fs "referenceNumber").getD .null,
        tracking := { container := (assocJ cdl "number").getD .null,
                      vessel := (assocJ vil "name").getD .null,
                      voyage := (assocJ vil "voyageNumber").getD .null,
                      location := { lat := (assocJ cpl "latitude").getD .null,
                                    lng := (assocJ cpl "longitude").getD .null,
                                    name := (assocJ cpl "locationName").getD .null } },
        schedule := { etd := (assocJ fs "departureDate").getD .null,
                      eta := (assocJ fs "arrivalDate").getD .null },
        status := { code := c, description := (assocJ fs "statusMessage").getD .null },
        flags := { is_risk := false, agent_notes := .null },
        metadata := { master_bill := (assocJ fs "masterBillOfLading").getD .null,
                      created_at := (assocJ fs "createdAt").getD .null,
                      updated_at := (assocJ fs "lastUpdated").getD .null } } := by
  simp [logitudeNormalizeBody, hcd, hvi, hcp, hsc, except_ok_bind, except_pure_eq_ok]

/-- The Logitude `try` body raises exactly on structurally bad payloads. -/
theorem logitudeNormalizeBody_isOk (fs : List (String × Json)) :
    (logitudeNormalizeBody (.obj fs)).isOk = !logitudeStructurallyBad (.obj fs) := by
  have hh := statusMapGet_isOk logitudeStatusMap ((assocJ fs "statusCode").getD .null)
  rcases json_obj_or ((assocJ fs "containerDetails").getD (.obj [])) with
    ⟨cdl, hcd⟩ | ⟨hcdno, hcderr⟩
  · rcases json_obj_or ((assocJ fs "vesselInfo").getD (.obj [])) with
      ⟨vil, hvi⟩ | ⟨hvino, hvierr⟩
    · rcases json_obj_or ((assocJ fs "currentPosition").getD (.obj [])) with
        ⟨cpl, hcp⟩ | ⟨hcpno, hcperr⟩
      · cases hsc : logitudeNormalizeStatusCode ((assocJ fs "statusCode").getD .null) with
        | ok c =>
            have hh' : ((assocJ fs "statusCode").getD .null).hashable = true := by
              rw [logitudeNormalizeStatusCode] at hsc
              rw [hsc] at hh
              simpa using hh.symm
            rw [logitudeNormalizeBody_ok_shape fs cdl vil cpl c hcd hvi hcp hsc]
            simp [logitudeStructurallyBad, hcd, hvi, hcp, hh']
        | error e =>
            have hh' : ((assocJ fs "statusCode").getD .null).hashable = false := by
              rw [logitudeNormalizeStatusCode] at hsc
              rw [hsc] at hh
              simpa using hh.symm
            simp [logitudeNormalizeBody, hcd, hvi, hcp, hsc,
              except_ok_bind, except_error_bind,
              logitudeStructurallyBad, hh']
      · simp [logitudeNormalizeBody, hcd, hvi, hcperr,
          except_ok_bind, except_error_bind,
          logitudeStructurallyBad, hcpno]
    · simp [logitudeNormalizeBody, hcd, hvierr,
        except_ok_bind, except_error_bind,
        logitudeStructurallyBad, hvino]
  · simp [logitudeNormalizeBody, hcderr,
      except_ok_bind, except_error_bind,
      logitudeStructurallyBad, hcdno]

@[simp] theorem objFields_obj (fs : List (String × Json)) :
    (Json.obj fs).objFields = fs := rfl

/-- The tracking `try` body raises exactly on structurally bad payloads. -/
theorem trackingNormalizeBody_isOk (fs : List (String × Json)) :
    (trackingNormalizeBody (.obj fs)).isOk = !trackingStructurallyBad (.obj fs) := by
  rcases json_obj_or ((assocJ fs "data").getD (.obj [])) with ⟨tfs, htd⟩ | ⟨htdno, htderr⟩
  · have hh := trackingStatusCode_isOk ((assocJ tfs "status").getD .null)
    cases hsc : trackingNormalizeStatusCode ((assocJ tfs "status").getD .null) with
    | ok c =>
        have hh' : (pyFalsy ((assocJ tfs "status").getD .null)
            || ((assocJ tfs "status").getD .null).isStr) = true := by
          rw [hsc] at hh
          simpa using hh.symm
        simp [trackingNormalizeBody, htd, hsc, except_ok_bind, except_pure_eq_ok,
          trackingStructurallyBad, hh']
    | error e =>
        have hh' : (pyFalsy ((assocJ tfs "status").getD .null)
            || ((assocJ tfs "status").getD .null).isStr) = false := by
          rw [hsc] at hh
          simpa using hh.symm
        simp [trackingNormalizeBody, htd, hsc, except_ok_bind, except_error_bind,
          trackingStructurallyBad, hh']
  · simp [trackingNormalizeBody, htderr, except_ok_bind, except_error_bind,
      trackingStructurallyBad, htdno]

/-- Lemma: `normalize_response` succeeds exactly when its `try` body does
(Logitude). -/
theorem logitudeNormalizeResponse_isOk (raw : Json) :
    (logitudeNormalizeResponse raw).isOk = !logitudeStructurallyBad raw := by
  have hb : (logitudeNormalizeBody raw).isOk = !logitudeStructurallyBad raw := by
    cases raw
    case obj fs => exact logitudeNormalizeBody_isOk fs
    all_goals simp [logitudeNormalizeBody, jget, logitudeStructurallyBad, except_error_bind]
  unfold logitudeNormalizeResponse
  cases h : logitudeNormalizeBody raw
  · rw [h] at hb
    simp only [except_isOk_error] at hb ⊢
    exact hb
  · rw [h] at hb
    simp only [except_isOk_ok] at hb ⊢
    exact hb

/-- Lemma: `normalize_response` succeeds exactly when its `try` body does
(generic tracking). -/
theorem trackingNormalizeResponse_isOk (raw : Json) :
    (trackingNormalizeResponse raw).isOk = !trackingStructurallyBad raw := by
  have hb : (trackingNormalizeBody raw).isOk = !trackingStructurallyBad raw := by
    cases raw
    case obj fs => exact trackingNormalizeBody_isOk fs
    all_goals simp [trackingNormalizeBody, jget, jgetD, trackingStructurallyBad,
      except_error_bind]
  unfold trackingNormalizeResponse
  cases h : trackingNormalizeBody raw
  · rw [h] at hb
    simp only [except_isOk_error] at hb ⊢
    exact hb
  · rw [h] at hb
    simp only [except_isOk_ok] at hb ⊢
    exact hb

/-- Counterexample to C7 as stated: a payload missing the field used as
the canonical identifier (`referenceNumber`) does NOT make the Logitude
normalizer fail — it silently succeeds with a record whose identifier
is null. -/
theorem missing_identifier_not_failure_cex :
    logitudeNormalizeResponse (Json.obj []) = .ok emptyPayloadRecord ∧
    emptyPayloadRecord.id = Json.null := ⟨rfl, rfl⟩

/-- C7 (amended): for the Logitude and generic tracking normalizers and
every payload, a missing optional field yields a null field in the
canonical record rather than a crash (each canonical field is the raw
lookup, defaulting to null on a miss, and the whole normalization
succeeds — in particular a payload missing the canonical-identifier
field yields a record with a null identifier, not a failure); the
normalizer fails exactly when the payload is structurally unparseable
(not a dict, a nested section that is not a dict, or a status value of
the wrong type), and that failure is an `AdapterError` carrying the
vendor name and the underlying cause. -/
theorem normalizer_fails_only_when_unparseable :
    (∀ raw, (logitudeNormalizeResponse raw).isOk = !logitudeStructurallyBad raw) ∧
    (∀ raw, (trackingNormalizeResponse raw).isOk = !trackingStructurallyBad raw) ∧
    (∀ raw e, logitudeNormalizeResponse raw = .error e →
        e.vendor = "Logitude" ∧ e.message = "Failed to normalize Logitude response") ∧
    (∀ raw e, trackingNormalizeResponse raw = .error e →
        e.vendor = "TrackingAPI" ∧ e.message = "Failed to normalize Tracking API response") ∧
    (∀ fs cdl vil cpl c,
      (assocJ fs "containerDetails").getD (.obj []) = .obj cdl →
      (assocJ fs "vesselInfo").getD (.obj []) = .obj vil →
      (assocJ fs "currentPosition").getD (.obj []) = .obj cpl →
      logitudeNormalizeStatusCode ((assocJ fs "statusCode").getD .null) = .ok c →
      logitudeNormalizeResponse (.obj fs) = .ok
        { id := (assocJ fs "referenceNumber").getD .null,
          tracking := { container := (assocJ cdl "number").getD .null,
                        vessel := (assocJ vil "name").getD .null,
                        voyage := (assocJ vil "voyageNumber").getD .null,
                        location := { lat := (assocJ cpl "latitude").getD .null,
                                      lng := (assocJ cpl "longitude").getD .null,
                                      name := (assocJ cpl "locationName").getD .null } },
          schedule := { etd := (assocJ fs "departureDate").getD .null,
                        eta := (assocJ fs "arrivalDate").getD .null },
          status := { code := c, description := (assocJ fs "statusMessage").getD .null },
          flags := { is_risk := false, agent_notes := .null },
          metadata := { master_bill := (assocJ fs "masterBillOfLading").getD .null,
                        created_at := (assocJ fs "createdAt").getD .null,
                        updated_at := (assocJ fs "lastUpdated").getD .null } }) ∧
    (∀ fs, assocJ fs "data" = none →
      trackingNormalizeResponse (.obj fs) = .ok emptyPayloadRecord) := by
  refine ⟨logitudeNormalizeResponse_isOk, trackingNormalizeResponse_isOk, ?_, ?_, ?_, ?_⟩
  · intro raw e h
    unfold logitudeNormalizeResponse at h
    cases hb : logitudeNormalizeBody raw <;> rw [hb] at h <;> cases h
    exact ⟨rfl, rfl⟩
  · intro raw e h
    unfold trackingNormalizeResponse at h
    cases hb : trackingNormalizeBody raw <;> rw [hb] at h <;> cases h
    exact ⟨rfl, rfl⟩
  · intro fs cdl vil cpl c hcd hvi hcp hsc
    unfold logitudeNormalizeResponse
    rw [logitudeNormalizeBody_ok_shape fs cdl vil cpl c hcd hvi hcp hsc]
  · intro fs hdata
    have htd : (assocJ fs "data").getD (.obj []) = .obj [] := by
      rw [hdata]
      rfl
    unfold trackingNormalizeResponse
    have hbody : trackingNormalizeBody (.obj fs) = .ok emptyPayloadRecord := by
      simp [trackingNormalizeBody, htd, except_ok_bind, except_pure_eq_ok,
        trackingNormalizeStatusCode, pyFalsy, assocJ, emptyPayloadRecord]
    rw [hbody]

/-- Witness for the amended C7 on the Logitude mock payload: every field
of the canonical record is the corresponding raw field. -/
theorem normalizer_fails_only_when_unparseable_witness :
    logitudeNormalizeResponse (logitudeMockRawData "JOB-77" "2026-01-05T00:00:00") = .ok
      { id := .str "JOB-77",
        tracking := { container := .str "MSCU1234567", vessel := .str "MSC GULSUN",
                      voyage := .str "025W",
                      location := { lat := .num (22.3193 : ℚ), lng := .num (114.1694 : ℚ),
                                    name := .str "South China Sea" } },
        schedule := { etd := .str "2025-12-10T08:00:00Z", eta := .str "2025-12-25T14:30:00Z" },
        status := { code := "IN_TRANSIT",
                    description := .str "Container loaded on vessel, departed from Port of Shanghai" },
        flags := { is_risk := false, agent_notes := .null },
        metadata := { master_bill := .str "MAEU123456789",
                      created_at := .str "2025-12-09T10:00:00Z",
                      updated_at := .str "2026-01-05T00:00:00" } } :=
  normalizer_fails_only_when_unparseable.2.2.2.2.1
    (logitudeMockRawData "JOB-77" "2026-01-05T00:00:00").objFields
    [("number", .str "MSCU1234567"), ("type", .str "40HC"), ("seal", .str "SL123456")]
    [("name", .str "MSC GULSUN"), ("voyageNumber", .str "025W"), ("imo", .str "9454436")]
    [("latitude", .num (22.3193 : ℚ)), ("longitude", .num (114.1694 : ℚ)),
     ("locationName", .str "South China Sea")]
    "IN_TRANSIT" rfl rfl rfl rfl
